import Mathlib

set_option autoImplicit false

/-!
Shallow embedding of the attribute-collection library (attribute.h, holder.h,
collection.h, tags.h): compile-time tags, Value and KeyValue containers,
Single and Multiple holders, and Collection with merge, extension, narrowing
conversion, readiness and lookup. Compile-time rejections (static assertions
and failed overload resolution) are modelled as Option results: none marks a
call shape that does not compile in the source.
-/

namespace PorterAttr

/-- Value types a tag can declare. The repository instantiates tags at
string-like types (string_view, std::string) and at uint32_t; the integers
are only stored and compared, never computed with, so Nat models them
exactly. -/
inductive Ty where
  | str
  | nat
deriving DecidableEq

/-- A tag: the compile-time identity of one attribute, a name paired with a
declared value type. attribute.h, is_tag_valid: a valid tag exposes a static
string_view name and a type member; the model carries both fields, so every
modelled tag is valid by construction. -/
structure Tag where
  name : String
  ty : Ty
deriving DecidableEq

/-- Runtime values of the declared value types. -/
inductive Val where
  | str (s : String)
  | nat (n : Nat)
deriving DecidableEq

/-- Shape (C++ type) of an attribute holder: Single over a tag with a
Required flag and a value type V, or Multiple over a tag and a value type V
(holder.h). -/
inductive HolderTy where
  | single (tag : Tag) (required : Bool) (vty : Ty)
  | multiple (tag : Tag) (vty : Ty)
deriving DecidableEq

namespace traits

/-- traits::tag_of, specialized for holder types (holder.h). -/
def tagOf : HolderTy → Tag
  | .single t _ _ => t
  | .multiple t _ => t

/-- traits::is_valid (holder.h): true for Single and Multiple holders over a
valid tag. Every modelled tag carries a name and a type, hence is valid. -/
def is_valid (_ : HolderTy) : Bool := true

/-- traits::contains (collection.h): whether a type occurs in a variadic
pack. Comparison is exact type equality (std::is_same). -/
def contains (t : HolderTy) : List HolderTy → Bool
  | [] => false
  | h :: hs => if t = h then true else contains t hs

/-- traits::are_holders_valid (collection.h): each holder is valid and its
exact type does not occur again later in the pack. -/
def are_holders_valid : List HolderTy → Bool
  | [] => true
  | h :: hs => is_valid h && !(contains h hs) && are_holders_valid hs

/-- traits::by_tag (collection.h): the first holder type in the pack whose
tag matches; none models the failed lookup, rejected by a static
assertion. -/
def by_tag (t : Tag) : List HolderTy → Option HolderTy
  | [] => none
  | h :: hs => if tagOf h = t then some h else by_tag t hs

/-- traits::extend for one new holder type (collection.h): prepend the new
type unless the exact type is already in the pack. -/
def extendOne (hs : List HolderTy) (n : HolderTy) : List HolderTy :=
  if contains n hs then hs else n :: hs

/-- traits::extend (collection.h): left fold of the one-type extension over
the pack of new holder types. -/
def extend (hs : List HolderTy) : List HolderTy → List HolderTy
  | [] => hs
  | n :: r => extend (extendOne hs n) r

end traits

/-- Value container (attribute.h): a typed optional value for a tag. The
field value is the stored optional. -/
structure ValueC where
  tag : Tag
  vty : Ty
  value : Option Val
deriving DecidableEq

/-- KeyValue container (attribute.h): a Value whose payload is a (name,
value) pair; the field kv is the stored optional pair. -/
structure KeyValueC where
  tag : Tag
  vty : Ty
  kv : Option (String × Val)
deriving DecidableEq

/-- A Value or KeyValue container, as passed to Collection::extend. -/
inductive Container where
  | val (v : ValueC)
  | kv (k : KeyValueC)
deriving DecidableEq

namespace traits

/-- traits::from (holder.h): the holder type induced by a container type.
A Value induces Single with Required set to true; a KeyValue induces
Multiple. -/
def from_t : Container → HolderTy
  | .val v => .single v.tag true v.vty
  | .kv k => .multiple k.tag k.vty

end traits

/-- Runtime state of a holder: a Single stores an optional value, a Multiple
stores an associative name-to-value container. The unordered_map is modelled
as a list of key-value pairs with unique keys; its iteration order is not
observable through the operations the library exposes. -/
inductive Holder where
  | single (tag : Tag) (required : Bool) (vty : Ty) (value : Option Val)
  | multiple (tag : Tag) (vty : Ty) (values : List (String × Val))
deriving DecidableEq

/-- The holder type (shape) of a holder state. -/
def Holder.ty : Holder → HolderTy
  | .single t r vty _ => .single t r vty
  | .multiple t vty _ => .multiple t vty

/-- The tag of a holder state. -/
def Holder.tag (h : Holder) : Tag := traits.tagOf h.ty

/-- A default-constructed holder of a given shape: an empty optional for
Single, an empty map for Multiple. -/
def HolderTy.default : HolderTy → Holder
  | .single t r vty => .single t r vty none
  | .multiple t vty => .multiple t vty []

/-- Single::operator bool and Multiple::operator bool (holder.h): a Single
is ready when it is not required or a value is present; a Multiple is always
ready. -/
def Holder.ready : Holder → Bool
  | .single _ r _ v => !r || v.isSome
  | .multiple _ _ _ => true

/-- unordered_map index-assignment (Multiple::operator=, holder.h): update
the entry with the key in place when present, append a fresh entry
otherwise. -/
def mapInsert : List (String × Val) → String → Val → List (String × Val)
  | [], k, v => [(k, v)]
  | p :: m, k, v => if p.1 = k then (k, v) :: m else p :: mapInsert m k v

/-- unordered_map find, as used by Multiple::operator() (holder.h): the
value stored under the key, if any. -/
def mapFind : List (String × Val) → String → Option Val
  | [], _ => none
  | p :: m, k => if p.1 = k then some p.2 else mapFind m k

/-- Single::operator= from a Value container (holder.h): the compatible
overload copies the container's optional into the holder, overwriting any
prior content; a mismatched tag or value type hits a static assertion, and
assigning a Value to a Multiple holder likewise does not compile (none). -/
def assignValue : Holder → ValueC → Option Holder
  | .single t r vty _, v =>
      if v.tag = t ∧ v.vty = vty then some (.single t r vty v.value) else none
  | .multiple _ _ _, _ => none

/-- Multiple::operator= from a KeyValue container (holder.h): when the
container's inner optional holds a (name, value) pair, insert or overwrite
that entry; when the inner optional is empty, the assignment leaves the map
untouched. A mismatched tag or value type hits a static assertion, and
assigning a KeyValue to a Single holder likewise does not compile (none). -/
def assignKeyValue : Holder → KeyValueC → Option Holder
  | .multiple t vty m, k =>
      if k.tag = t ∧ k.vty = vty then
        some (.multiple t vty (match k.kv with
          | none => m
          | some (key, v) => mapInsert m key v))
      else none
  | .single _ _ _ _, _ => none

/-- A Collection's runtime state: its tuple of holders, in pack order. -/
abbrev Collection := List Holder

/-- The holder pack (shape) of a collection state. -/
def Collection.shape (c : Collection) : List HolderTy := c.map Holder.ty

/-- A default-constructed collection of a given shape. -/
def defaultColl (shape : List HolderTy) : Collection := shape.map HolderTy.default

/-- Collection::assign for one destination holder (collection.h): when the
exact holder type occurs in the source pack, replace the current holder with
the source's holder of that exact type (std::get by type; holder types are
unique in a valid pack, so the first occurrence is the occurrence);
otherwise leave the current holder unchanged. -/
def assignFrom (src : Collection) (cur : Holder) : Holder :=
  match src.find? (fun h => decide (h.ty = cur.ty)) with
  | some h => h
  | none => cur

/-- Collection cross-shape constructor (collection.h): default-construct the
destination holders, then run the per-holder assign against the source for
each of them. -/
def Collection.ofOther (shape : List HolderTy) (src : Collection) : Collection :=
  shape.map (fun ty => assignFrom src ty.default)

/-- Collection cross-shape copy assignment (collection.h): runs the
per-holder assign for every destination holder and then falls off the end of
the reference-returning function. The first component is the updated holder
tuple; the second is the function's returned reference, which no return
statement ever produces. -/
def Collection.opAssignCopy (dst : Collection) (src : Collection) :
    Collection × Option Collection :=
  (dst.map (assignFrom src), none)

/-- Collection cross-shape move assignment (collection.h): same body as the
copy overload, moving from the source; it also has no return statement. -/
def Collection.opAssignMove (dst : Collection) (src : Collection) :
    Collection × Option Collection :=
  (dst.map (assignFrom src), none)

/-- Collection::ready and operator bool (collection.h): a left fold of the
boolean conjunction over every holder, in pack order. -/
def Collection.ready (c : Collection) : Bool :=
  c.foldl (fun acc h => acc && h.ready) true

/-- Collection merge of a Value container (collection.h): assign the
container into the holder selected by traits::by_tag, the first holder whose
tag matches; none models the compile-time rejections (tag not found, or the
selected holder's assignment is a static assertion). -/
def Collection.putValue : Collection → ValueC → Option Collection
  | [], _ => none
  | h :: hs, v =>
      if h.tag = v.tag then (assignValue h v).map (· :: hs)
      else (Collection.putValue hs v).map (h :: ·)

/-- Collection merge of a KeyValue container (collection.h): assign the
container into the holder selected by traits::by_tag. -/
def Collection.putKeyValue : Collection → KeyValueC → Option Collection
  | [], _ => none
  | h :: hs, k =>
      if h.tag = k.tag then (assignKeyValue h k).map (· :: hs)
      else (Collection.putKeyValue hs k).map (h :: ·)

/-- Collection merge of either container kind. -/
def Collection.put (c : Collection) : Container → Option Collection
  | .val v => c.putValue v
  | .kv k => c.putKeyValue k

/-- Collection::extend (collection.h): compute the extended shape with
traits::extend over the holder types induced by the containers, build the
extended collection from this one (the defaulted move constructor when the
shape is unchanged, the cross-shape constructor otherwise; the two coincide
on valid collections since holder types are unique in a valid pack), then
merge every container in order. -/
def Collection.extend (c : Collection) (attrs : List Container) : Option Collection :=
  let sh := traits.extend c.shape (attrs.map traits.from_t)
  let base := if sh = c.shape then c else Collection.ofOther sh c
  attrs.foldlM Collection.put base

/-- Collection scalar lookup (collection.h): the holder is selected by
traits::by_tag and its stored optional is returned. The outer Option models
compile-time rejection: tag not found, or the selected holder is a Multiple,
whose stored type is the map rather than an optional. -/
def Collection.getScalar : Collection → Tag → Option (Option Val)
  | [], _ => none
  | h :: hs, t =>
      if h.tag = t then
        match h with
        | .single _ _ _ v => some v
        | .multiple _ _ _ => none
      else Collection.getScalar hs t

/-- Multiple::operator() (holder.h): keyed lookup in one holder's map; the
inner Option is the not-found result. The outer Option models compile-time
rejection of the call shape on a Single holder, which has no key_type. -/
def Holder.lookupKey : Holder → String → Option (Option Val)
  | .multiple _ _ m, k => some (mapFind m k)
  | .single _ _ _ _, _ => none

/-- Collection keyed lookup (collection.h): the holder is selected by
traits::by_tag and must be a Multiple. -/
def Collection.getKeyed : Collection → Tag → String → Option (Option Val)
  | [], _, _ => none
  | h :: hs, t, k =>
      if h.tag = t then h.lookupKey k
      else Collection.getKeyed hs t k

/-- operator+ of a Collection and a Value (collection.h): extend the
collection with the one container. -/
def addCollValue (c : Collection) (v : ValueC) : Option Collection :=
  c.extend [.val v]

/-- operator+ of a Value and a Collection (collection.h): forwards to the
Collection-plus-Value operator. -/
def addValueColl (v : ValueC) (c : Collection) : Option Collection :=
  addCollValue c v

/-- operator+ of two Values (collection.h): an empty Collection plus the
left operand, plus the right operand. -/
def addValueValue (l r : ValueC) : Option Collection :=
  (addCollValue [] l).bind (fun c => addCollValue c r)

/-- operator+ of a Collection and a KeyValue (collection.h). -/
def addCollKeyValue (c : Collection) (k : KeyValueC) : Option Collection :=
  c.extend [.kv k]

/-- operator+ of a KeyValue and a Collection (collection.h). -/
def addKeyValueColl (k : KeyValueC) (c : Collection) : Option Collection :=
  addCollKeyValue c k

/-- operator+ of two KeyValues (collection.h): an empty Collection plus the
left operand, plus the right operand. -/
def addKeyValueKeyValue (l r : KeyValueC) : Option Collection :=
  (addCollKeyValue [] l).bind (fun c => addCollKeyValue c r)

/-- operator+ of a Value and a KeyValue (collection.h): an empty Collection
plus the left operand, plus the right operand. -/
def addValueKeyValue (l : ValueC) (r : KeyValueC) : Option Collection :=
  (addCollValue [] l).bind (fun c => addCollKeyValue c r)

/-- operator+ of a KeyValue and a Value (collection.h): forwards to the
Value-plus-KeyValue operator with the operands swapped. -/
def addKeyValueValue (l : KeyValueC) (r : ValueC) : Option Collection :=
  addValueKeyValue r l

/-! Concrete tags and container builders of the demonstration application
(tags.h, test.cpp). -/

/-- The service tag: string valued. -/
def serviceTag : Tag := ⟨"service", .str⟩

/-- The subsystem tag: string valued. -/
def subsystemTag : Tag := ⟨"subsystem", .str⟩

/-- The context tag: associative, string valued. -/
def contextTag : Tag := ⟨"context", .str⟩

/-- The pwho tag: uint32 valued. -/
def pwhoTag : Tag := ⟨"pwho", .nat⟩

/-- The label tag: uint32 valued. -/
def labelTag : Tag := ⟨"label", .nat⟩

/-- The Service attribute container. -/
def Service (s : String) : ValueC := ⟨serviceTag, .str, some (.str s)⟩

/-- The Subsystem attribute container. -/
def Subsystem (s : String) : ValueC := ⟨subsystemTag, .str, some (.str s)⟩

/-- The Label attribute container. -/
def Label (n : Nat) : ValueC := ⟨labelTag, .nat, some (.nat n)⟩

/-- The Pwho attribute container. -/
def Pwho (n : Nat) : ValueC := ⟨pwhoTag, .nat, some (.nat n)⟩

/-- The Context attribute container: a named entry for the context tag. -/
def Context (k : String) (v : String) : KeyValueC := ⟨contextTag, .str, some (k, .str v)⟩

/-- The demonstration Collection shape: required service, optional label,
associative context (test.cpp). -/
def collShape : List HolderTy :=
  [.single serviceTag true .str, .single labelTag false .nat, .multiple contextTag .str]

/-- The two-tag source Collection shape: required service and subsystem
(test.cpp, PartialMatch). -/
def partialShape : List HolderTy :=
  [.single serviceTag true .str, .single subsystemTag true .str]

/-! Runtime scenarios of the demonstration routine (test.cpp). -/

/-- The two-tag source collection populated with service and subsystem
values (test.cpp): a default-constructed PartialMatch streamed the Service
and Subsystem containers. -/
def partialColl : Option Collection :=
  (Collection.putValue (defaultColl partialShape) (Service "integsvc")).bind
    (fun c => Collection.putValue c (Subsystem "fcalchippo"))

/-- The three-tag collection constructed from the two-tag source by the
cross-shape constructor (test.cpp, Coll base with the partial source). -/
def baseColl : Option Collection :=
  partialColl.map (fun c => Collection.ofOther collShape c)

/-- The collection obtained by extending the three-tag collection with the
Label and Pwho containers (test.cpp). -/
def extendedColl : Option Collection :=
  baseColl.bind (fun c => c.extend [.val (Label 42), .val (Pwho 1234)])

/-- The demonstration collection populated with a service value and two
context entries (test.cpp). -/
def demoColl : Option Collection :=
  ((Collection.putValue (defaultColl collShape) (Service "pisvc")).bind
    (fun c => Collection.putKeyValue c (Context "LID" "FIINDEX:LUATTRUU"))).bind
    (fun c => Collection.putKeyValue c (Context "DFPATH" "anton-test.1"))

/-- Number of holder types in a pack that carry a given tag. -/
def countTag (sh : List HolderTy) (t : Tag) : Nat :=
  (sh.filter (fun h => decide (traits.tagOf h = t))).length

/-- The observable triple of the sum scenario: service, subsystem and label
scalar lookups on an optional collection. -/
def sumObs (oc : Option Collection) :
    Option (Option (Option Val) × Option (Option Val) × Option (Option Val)) :=
  oc.map (fun c => (c.getScalar serviceTag, c.getScalar subsystemTag, c.getScalar labelTag))

/-- The expected observable of the sum scenario: service pisvc, subsystem
adc, label 4242, each present. -/
def sumExpected :
    Option (Option (Option Val) × Option (Option Val) × Option (Option Val)) :=
  some (some (some (.str "pisvc")), some (some (.str "adc")), some (some (.nat 4242)))

/-- A one-holder source collection whose service holder is not required and
carries a value: its shape declares the service tag. -/
def narrowSrc : Collection := [.single serviceTag false .str (some (.str "x"))]

/-- A one-holder destination shape whose service holder is required: it
declares the same service tag as the source above, under a different holder
type. -/
def narrowDstShape : List HolderTy := [.single serviceTag true .str]

/-! Helper lemmas shared by the claim theorems. -/

/-- The pack-membership trait decides list membership. -/
theorem contains_iff_mem (t : HolderTy) (hs : List HolderTy) :
    traits.contains t hs = true ↔ t ∈ hs := by
  induction hs with
  | nil => simp [traits.contains]
  | cons h hs ih =>
      by_cases ht : t = h
      · simp [traits.contains, ht]
      · simp [traits.contains, ht, ih]

/-- The readiness fold with an arbitrary accumulator. -/
theorem ready_foldl (c : List Holder) (b : Bool) :
    c.foldl (fun acc h => acc && h.ready) b = (b && c.all Holder.ready) := by
  induction c generalizing b with
  | nil => simp
  | cons h hs ih => simp [List.foldl_cons, ih, List.all_cons, Bool.and_assoc]

/-- Collection readiness is the conjunction over all holders. -/
theorem ready_eq_all (c : Collection) : Collection.ready c = c.all Holder.ready := by
  simpa using ready_foldl c true

/-- A default-constructed holder has the shape it was built from. -/
theorem default_ty (ty : HolderTy) : (HolderTy.default ty).ty = ty := by
  cases ty <;> rfl

/-- C1, counterexample: the holder-validity assertion does not reject a pack
with two holders for the same tag. The pack holding a required and a
non-required Single for the service tag has two distinct holder types with
the same tag, yet the validity trait accepts it. -/
theorem c1_duplicate_tag_pack_accepted :
    traits.tagOf (HolderTy.single serviceTag true Ty.str)
        = traits.tagOf (HolderTy.single serviceTag false Ty.str)
      ∧ HolderTy.single serviceTag true Ty.str ≠ HolderTy.single serviceTag false Ty.str
      ∧ traits.are_holders_valid
          [HolderTy.single serviceTag true Ty.str,
           HolderTy.single serviceTag false Ty.str] = true := by
  decide

/-- C1, amended: the holder-validity assertion accepts a holder pack exactly
when no exact holder type occurs twice in it (every modelled holder is
individually valid); uniqueness is per holder type, not per tag, so two
Single holders for the same tag that differ in the Required flag or value
type are accepted. -/
theorem c1_holders_valid_iff_nodup (hs : List HolderTy) :
    traits.are_holders_valid hs = true ↔ hs.Nodup := by
  induction hs with
  | nil => simp [traits.are_holders_valid]
  | cons h hs ih =>
      simp only [traits.are_holders_valid, traits.is_valid, Bool.true_and,
        Bool.and_eq_true, Bool.not_eq_true', List.nodup_cons, ih]
      constructor
      · rintro ⟨hc, hn⟩
        exact ⟨fun hm => by simp [(contains_iff_mem h hs).mpr hm] at hc, hn⟩
      · rintro ⟨hm, hn⟩
        refine ⟨?_, hn⟩
        cases hc : traits.contains h hs
        · rfl
        · exact absurd ((contains_iff_mem h hs).mp hc) hm

/-- C1, witness for the amended theorem at a concrete pack. -/
theorem c1_holders_valid_iff_nodup_witness :
    traits.are_holders_valid
      [HolderTy.single serviceTag true Ty.str, HolderTy.multiple contextTag Ty.str] = true :=
  (c1_holders_valid_iff_nodup
    [HolderTy.single serviceTag true Ty.str, HolderTy.multiple contextTag Ty.str]).mpr (by decide)

/-- C2, counterexample: extending the demonstration collection with the
Label container adds a second holder for the label tag, although that tag
already exists in the collection: the shape computed by traits::extend for
the exact extension scenario holds two label holders, because deduplication
compares exact holder types and the Label container induces a required
Single while the collection declares a non-required one. -/
theorem c2_extend_adds_second_holder_for_existing_tag :
    countTag collShape labelTag = 1
      ∧ countTag (traits.extend collShape
          [traits.from_t (.val (Label 42)), traits.from_t (.val (Pwho 1234))]) labelTag = 2 := by
  decide

/-- C2, amended: extension deduplicates by exact holder type, not by tag: a
container whose induced holder type is already in the pack is not re-added
(the fold step returns the pack unchanged), while a container whose tag
exists only under a different holder type prepends a second holder for that
tag; merging then targets the first holder with the tag, so the exact
scenario still yields service integsvc, label 42 and pwho 1234. -/
theorem c2_extend_dedup_by_holder_type :
    (∀ (hs : List HolderTy) (n : HolderTy),
        traits.extendOne hs n = if traits.contains n hs then hs else n :: hs)
      ∧ (∀ (hs : List HolderTy) (n : HolderTy),
          traits.contains n hs = true → traits.extend hs [n] = hs)
      ∧ extendedColl.map
          (fun c => (c.getScalar serviceTag, c.getScalar labelTag, c.getScalar pwhoTag))
        = some (some (some (.str "integsvc")), some (some (.nat 42)), some (some (.nat 1234))) := by
  refine ⟨fun hs n => rfl, fun hs n h => ?_, by decide⟩
  simp [traits.extend, traits.extendOne, h]

/-- C2, witness for the amended theorem at a concrete pack: extending with
an exactly duplicated holder type leaves the pack unchanged. -/
theorem c2_extend_dedup_by_holder_type_witness :
    traits.extend [HolderTy.single serviceTag true Ty.str]
      [HolderTy.single serviceTag true Ty.str] = [HolderTy.single serviceTag true Ty.str] :=
  c2_extend_dedup_by_holder_type.2.1 [HolderTy.single serviceTag true Ty.str]
    (HolderTy.single serviceTag true Ty.str) (by decide)

/-- C3, counterexample: a narrowing construction does not copy a tag that
both shapes declare when the two holders differ in the Required flag: the
source declares the service tag (non-required, value present) and the
destination declares the service tag (required), yet the constructed
collection's service value is empty, not the source's value. -/
theorem c3_same_tag_not_copied :
    (traits.by_tag serviceTag (Collection.shape narrowSrc)).isSome = true
      ∧ (traits.by_tag serviceTag narrowDstShape).isSome = true
      ∧ narrowSrc.getScalar serviceTag = some (some (.str "x"))
      ∧ (Collection.ofOther narrowDstShape narrowSrc).getScalar serviceTag = some none := by
  decide

/-- C3, amended: narrowing construction and assignment copy per exact holder
type, not per tag: a destination holder is left default-constructed whenever
its exact type is absent from the source (even if the source declares the
same tag under a different holder type) and receives the source's holder of
its exact type when present; the two-tag source projected into the three-tag
destination still yields service copied with label and context left at their
default, empty state. -/
theorem c3_narrowing_copies_exact_holder_types :
    (∀ (src : Collection) (ty : HolderTy),
        (∀ h ∈ src, h.ty ≠ ty) → assignFrom src ty.default = ty.default)
      ∧ (∀ (src : Collection) (ty : HolderTy) (h : Holder),
          src.find? (fun h2 => decide (h2.ty = ty)) = some h → assignFrom src ty.default = h)
      ∧ (∀ (sh : List HolderTy) (src : Collection),
          Collection.ofOther sh src = sh.map (fun ty => assignFrom src ty.default))
      ∧ baseColl = some [.single serviceTag true .str (some (.str "integsvc")),
          .single labelTag false .nat none, .multiple contextTag .str []] := by
  refine ⟨?_, ?_, fun sh src => rfl, by decide⟩
  · intro src ty hno
    unfold assignFrom
    rw [default_ty]
    have hfind : src.find? (fun h => decide (h.ty = ty)) = none :=
      List.find?_eq_none.mpr (fun x hx => by simpa using hno x hx)
    rw [hfind]
  · intro src ty h hfind
    unfold assignFrom
    rw [default_ty, hfind]

/-- C3, witness for the amended theorem at a concrete input: a destination
holder whose exact type is absent from the source stays default. -/
theorem c3_narrowing_copies_exact_holder_types_witness :
    assignFrom narrowSrc (HolderTy.single subsystemTag true Ty.str).default
      = (HolderTy.single subsystemTag true Ty.str).default :=
  c3_narrowing_copies_exact_holder_types.1 narrowSrc
    (HolderTy.single subsystemTag true Ty.str) (by decide)

/-- C4: the Single-holder half of the claim evaluated at the claim's own
input: assigning Service a and then Service b into the same
default-constructed required service holder leaves b (last write wins). The
other half of the claim concerns the Value container's update-assignment
operator, which as written passes its argument to the argument-less
std::optional::reset and therefore cannot be instantiated; see the result
record for that code bug. -/
theorem c4_single_holder_last_write_wins :
    (assignValue ((HolderTy.single serviceTag true Ty.str).default) (Service "a")).bind
        (fun h => assignValue h (Service "b"))
      = some (.single serviceTag true Ty.str (some (.str "b"))) := by
  decide

/-- C5: a Single holder is ready exactly when a value is present or the
holder is not required. Consequently a default-constructed required holder
is not ready and a default-constructed collection whose shape contains a
required Single is not ready, a non-required holder is ready when
default-constructed, and assigning a value for the tag makes the holder
ready. -/
theorem c5_single_ready_iff :
    (∀ (t : Tag) (r : Bool) (vty : Ty) (v : Option Val),
        Holder.ready (.single t r vty v) = true ↔ (v.isSome = true ∨ r = false))
      ∧ (∀ (t : Tag) (vty : Ty),
          Holder.ready ((HolderTy.single t true vty).default) = false)
      ∧ (∀ (t : Tag) (vty : Ty),
          Holder.ready ((HolderTy.single t false vty).default) = true)
      ∧ (∀ (t : Tag) (r : Bool) (vty : Ty) (old : Option Val) (x : Val),
          (assignValue (.single t r vty old) ⟨t, vty, some x⟩).map Holder.ready = some true)
      ∧ (∀ (sh : List HolderTy) (t : Tag) (vty : Ty),
          HolderTy.single t true vty ∈ sh → Collection.ready (defaultColl sh) = false) := by
  refine ⟨?_, ?_, ?_, ?_, ?_⟩
  · intro t r vty v
    cases r <;> simp [Holder.ready]
  · intro t vty
    simp [Holder.ready, HolderTy.default]
  · intro t vty
    simp [Holder.ready, HolderTy.default]
  · intro t r vty old x
    simp [assignValue, Holder.ready]
  · intro sh t vty hm
    rw [ready_eq_all]
    have hmem : HolderTy.default (HolderTy.single t true vty) ∈ defaultColl sh :=
      List.mem_map_of_mem HolderTy.default hm
    have hnr : Holder.ready (HolderTy.default (HolderTy.single t true vty)) = false := by
      simp [Holder.ready, HolderTy.default]
    cases hall : (defaultColl sh).all Holder.ready
    · rfl
    · have := List.all_eq_true.mp hall _ hmem
      rw [hnr] at this
      exact absurd this (by decide)

/-- C5, witness: the default-constructed two-tag collection with required
service and subsystem holders is not ready. -/
theorem c5_single_ready_iff_witness :
    Collection.ready (defaultColl partialShape) = false :=
  c5_single_ready_iff.2.2.2.2 partialShape serviceTag Ty.str (by decide)

/-- C6: on a Multiple holder's map, inserting under a name stores that value
under that name, leaves every other name's lookup unchanged (so distinct
names are all preserved and a re-assigned name overwrites only its own
entry), re-assigning a present name keeps the entry count, and assigning a
KeyValue whose inner optional is empty returns the holder completely
unchanged, creating no placeholder entry. -/
theorem c6_multiple_assign_frame :
    (∀ (m : List (String × Val)) (k : String) (v : Val),
        mapFind (mapInsert m k v) k = some v)
      ∧ (∀ (m : List (String × Val)) (k : String) (v : Val) (k2 : String),
          k2 ≠ k → mapFind (mapInsert m k v) k2 = mapFind m k2)
      ∧ (∀ (m : List (String × Val)) (k : String) (v : Val),
          (mapFind m k).isSome = true → (mapInsert m k v).length = m.length)
      ∧ (∀ (t : Tag) (vty : Ty) (m : List (String × Val)),
          assignKeyValue (.multiple t vty m) ⟨t, vty, none⟩ = some (.multiple t vty m))
      ∧ (∀ (t : Tag) (vty : Ty) (m : List (String × Val)) (k : String) (v : Val),
          assignKeyValue (.multiple t vty m) ⟨t, vty, some (k, v)⟩
            = some (.multiple t vty (mapInsert m k v))) := by
  refine ⟨?_, ?_, ?_, ?_, ?_⟩
  · intro m k v
    induction m with
    | nil => simp [mapInsert, mapFind]
    | cons p m ih =>
        by_cases hp : p.1 = k
        · simp [mapInsert, hp, mapFind]
        · simp [mapInsert, hp, mapFind, ih]
  · intro m k v k2 hne
    have hne2 : ¬(k = k2) := fun h => hne h.symm
    induction m with
    | nil => simp [mapInsert, mapFind, hne2]
    | cons p m ih =>
        by_cases hp : p.1 = k
        · simp [mapInsert, hp, mapFind, hne2]
        · simp [mapInsert, hp, mapFind, ih]
  · intro m k v
    induction m with
    | nil => simp [mapFind]
    | cons p m ih =>
        by_cases hp : p.1 = k
        · intro _
          simp [mapInsert, hp]
        · intro hs
          rw [mapFind, if_neg hp] at hs
          simp [mapInsert, hp, ih hs]
  · intro t vty m
    simp [assignKeyValue]
  · intro t vty m k v
    simp [assignKeyValue]

/-- C6, witness: inserting under the DFPATH name leaves the LID lookup
unchanged. -/
theorem c6_multiple_assign_frame_witness :
    mapFind (mapInsert [("LID", Val.str "a")] "DFPATH" (Val.str "b")) "LID"
      = mapFind [("LID", Val.str "a")] "LID" :=
  c6_multiple_assign_frame.2.1 [("LID", Val.str "a")] "DFPATH" (Val.str "b") "LID" (by decide)

/-- C7: keyed lookup returns none exactly when no entry carries the name,
returns a stored entry's value for a present name, the Multiple holder's
call operator is that map lookup, and the demonstration collection with the
LID and DFPATH context entries returns the LID value and a not-found result
for NONE. -/
theorem c7_keyed_lookup :
    (∀ (m : List (String × Val)) (k : String),
        mapFind m k = none ↔ ∀ p ∈ m, p.1 ≠ k)
      ∧ (∀ (m : List (String × Val)) (k : String) (v : Val),
          mapFind m k = some v → (k, v) ∈ m)
      ∧ (∀ (t : Tag) (vty : Ty) (m : List (String × Val)) (k : String),
          Holder.lookupKey (.multiple t vty m) k = some (mapFind m k))
      ∧ demoColl.map (fun c => (c.getKeyed contextTag "LID", c.getKeyed contextTag "NONE"))
        = some (some (some (.str "FIINDEX:LUATTRUU")), some none) := by
  refine ⟨?_, ?_, fun t vty m k => rfl, by decide⟩
  · intro m k
    induction m with
    | nil => simp [mapFind]
    | cons p m ih =>
        by_cases hp : p.1 = k
        · simp [mapFind, hp]
        · simp [mapFind, hp, ih]
  · intro m k v
    induction m with
    | nil => simp [mapFind]
    | cons p m ih =>
        by_cases hp : p.1 = k
        · rw [mapFind, if_pos hp]
          intro hv
          cases p
          cases hp
          cases Option.some.inj hv
          exact List.mem_cons_self _ _
        · rw [mapFind, if_neg hp]
          intro hv
          exact List.mem_cons_of_mem _ (ih hv)

/-- C7, witness: lookup in an empty context map is a not-found result. -/
theorem c7_keyed_lookup_witness :
    mapFind [] "NONE" = none :=
  (c7_keyed_lookup.1 [] "NONE").mpr (by simp)

/-- C8: a Collection is ready exactly when every one of its holders is
ready, the empty Collection is vacuously ready, and a Multiple holder is
always ready. -/
theorem c8_collection_ready_conjunction :
    (∀ c : Collection, Collection.ready c = true ↔ ∀ h ∈ c, Holder.ready h = true)
      ∧ Collection.ready [] = true
      ∧ (∀ (t : Tag) (vty : Ty) (m : List (String × Val)),
          Holder.ready (.multiple t vty m) = true) := by
  refine ⟨fun c => ?_, rfl, fun t vty m => rfl⟩
  rw [ready_eq_all]
  exact List.all_eq_true

/-- C8, witness: a one-holder collection with a populated context map is
ready. -/
theorem c8_collection_ready_conjunction_witness :
    Collection.ready [Holder.multiple contextTag Ty.str [("LID", Val.str "a")]] = true :=
  (c8_collection_ready_conjunction.1
    [Holder.multiple contextTag Ty.str [("LID", Val.str "a")]]).mpr (by decide)

/-- C9: every addition operator reduces to Collection::extend (on an empty
Collection for the container-only forms), and composing the Service,
Subsystem and Label containers yields the same three observable values for
every operand order and pairing: all six left-nested permutations and all
six right-nested permutations produce service pisvc, subsystem adc and label
4242. -/
theorem c9_addition_reduces_to_extend :
    (∀ (c : Collection) (v : ValueC), addCollValue c v = c.extend [.val v])
      ∧ (∀ (v : ValueC) (c : Collection), addValueColl v c = addCollValue c v)
      ∧ (∀ (l r : ValueC),
          addValueValue l r = (addCollValue [] l).bind (fun c => addCollValue c r))
      ∧ (∀ (c : Collection) (k : KeyValueC), addCollKeyValue c k = c.extend [.kv k])
      ∧ (∀ (k : KeyValueC) (c : Collection), addKeyValueColl k c = addCollKeyValue c k)
      ∧ (∀ (l r : KeyValueC),
          addKeyValueKeyValue l r = (addCollKeyValue [] l).bind (fun c => addCollKeyValue c r))
      ∧ (∀ (l : ValueC) (r : KeyValueC),
          addValueKeyValue l r = (addCollValue [] l).bind (fun c => addCollKeyValue c r))
      ∧ (∀ (l : KeyValueC) (r : ValueC), addKeyValueValue l r = addValueKeyValue r l)
      ∧ sumObs ((addValueValue (Service "pisvc") (Subsystem "adc")).bind
          (fun c => addCollValue c (Label 4242))) = sumExpected
      ∧ sumObs ((addValueValue (Service "pisvc") (Label 4242)).bind
          (fun c => addCollValue c (Subsystem "adc"))) = sumExpected
      ∧ sumObs ((addValueValue (Subsystem "adc") (Service "pisvc")).bind
          (fun c => addCollValue c (Label 4242))) = sumExpected
      ∧ sumObs ((addValueValue (Subsystem "adc") (Label 4242)).bind
          (fun c => addCollValue c (Service "pisvc"))) = sumExpected
      ∧ sumObs ((addValueValue (Label 4242) (Service "pisvc")).bind
          (fun c => addCollValue c (Subsystem "adc"))) = sumExpected
      ∧ sumObs ((addValueValue (Label 4242) (Subsystem "adc")).bind
          (fun c => addCollValue c (Service "pisvc"))) = sumExpected
      ∧ sumObs ((addValueValue (Subsystem "adc") (Label 4242)).bind
          (fun c => addValueColl (Service "pisvc") c)) = sumExpected
      ∧ sumObs ((addValueValue (Label 4242) (Subsystem "adc")).bind
          (fun c => addValueColl (Service "pisvc") c)) = sumExpected
      ∧ sumObs ((addValueValue (Service "pisvc") (Label 4242)).bind
          (fun c => addValueColl (Subsystem "adc") c)) = sumExpected
      ∧ sumObs ((addValueValue (Label 4242) (Service "pisvc")).bind
          (fun c => addValueColl (Subsystem "adc") c)) = sumExpected
      ∧ sumObs ((addValueValue (Service "pisvc") (Subsystem "adc")).bind
          (fun c => addValueColl (Label 4242) c)) = sumExpected
      ∧ sumObs ((addValueValue (Subsystem "adc") (Service "pisvc")).bind
          (fun c => addValueColl (Label 4242) c)) = sumExpected :=
  ⟨fun _ _ => rfl, fun _ _ => rfl, fun _ _ => rfl, fun _ _ => rfl, fun _ _ => rfl,
   fun _ _ => rfl, fun _ _ => rfl, fun _ _ => rfl,
   by decide, by decide, by decide, by decide, by decide, by decide,
   by decide, by decide, by decide, by decide, by decide, by decide⟩

/-- C10: each of the two cross-shape assignment operators of Collection
updates the destination holders but produces no return value: the returned
reference component of the embedding is none for every call, so no call
completes by returning the updated collection. -/
theorem c10_cross_assign_never_returns :
    ∀ (dst src : Collection),
      (Collection.opAssignCopy dst src).2 = none
        ∧ (Collection.opAssignMove dst src).2 = none :=
  fun _ _ => ⟨rfl, rfl⟩

end PorterAttr
